import Mathlib

/-!
# Slack RTM client: event multiplexer and session client

A shallow embedding of `events.go` and `client.go`.

* Go panics are explicit: a call that may panic returns a `Result`.
* A Go `map[string]muxEntry` is an association list read by first match and
  written by replacing the key; a nil map is `none`.
* The websocket connection is an external object.  The client holds only its
  handle (`conn`, nil or a reference); the observable state of the connection
  (read results still to be delivered, frames written, number of `Close`
  operations performed) is the record `Wire`, threaded explicitly.
* The HTTP call, the JSON decoder and the websocket dialer are parameters
  (`World`).
* `uint64` is `Nat` reduced modulo `2 ^ 64`.
-/

namespace Slack

/-! ## Go runtime outcomes -/

/-- Outcome of a Go call: it returns a value or it panics. -/
inductive Result (α : Type) where
  | ok (val : α)
  | panic (msg : String)
  deriving Repr, DecidableEq

/-- True when the call panicked. -/
def Result.isPanic {α : Type} : Result α → Bool
  | .ok _ => false
  | .panic _ => true

/-! ## events.go -/

/-- A value of the Go interface type `Handler`: the nil interface, or an
implementation identified by `id`. -/
inductive Handler where
  | nil
  | impl (id : Nat)
  deriving Repr, DecidableEq

/-- The struct `muxEntry`. -/
structure muxEntry where
  explicit : Bool
  handler : Handler
  event : String
  deriving Repr, DecidableEq

/-- The zero value of `muxEntry`, read from a map at a missing key. -/
def muxEntry.zero : muxEntry := ⟨false, Handler.nil, ""⟩

/-- Map read `m[k]` with the comma-ok form: the entry, if the key is present. -/
def mapGet : List (String × muxEntry) → String → Option muxEntry
  | [], _ => none
  | (k', v) :: rest, k => if k' = k then some v else mapGet rest k

/-- Map write `m[k] = v`: the key is bound to `v`, every other key is kept. -/
def mapSet (m : List (String × muxEntry)) (k : String) (v : muxEntry) :
    List (String × muxEntry) :=
  (k, v) :: m.filter (fun p => decide (p.1 ≠ k))

/-- The struct `EventMux`; `m = none` is the nil map.  The mutex `mu` guards
`Handle` only and has no sequential content. -/
structure EventMux where
  m : Option (List (String × muxEntry))
  deriving Repr, DecidableEq

/-- `NewEventMux` returns `new(EventMux)`: the zero value, whose map is nil. -/
def NewEventMux : EventMux := ⟨none⟩

/-- The comma-ok read `v, ok := mux.m[event]`; reading a nil map finds nothing. -/
def EventMux.lookup (mux : EventMux) (event : String) : Option muxEntry :=
  match mux.m with
  | none => none
  | some m => mapGet m event

/-- The plain read `mux.m[event]`: the zero entry when the key is missing. -/
def EventMux.index (mux : EventMux) (event : String) : muxEntry :=
  (mux.lookup event).getD muxEntry.zero

/-- `EventMux.Handle`: three guards that panic, then the map is allocated if it
is nil and the entry is written. -/
def EventMux.Handle (mux : EventMux) (event : String) (handler : Handler) :
    Result EventMux :=
  if event = "" then
    .panic ("events: invalid event " ++ event)
  else if handler = Handler.nil then
    .panic "events: nil handler"
  else if (mux.index event).explicit then
    .panic ("events: multiple registrations for " ++ event)
  else
    let m := match mux.m with
      | none => []
      | some m => m
    .ok ⟨some (mapSet m event ⟨true, handler, event⟩)⟩

/-- `EventMux.match` (the Go method `match`): exact lookup that panics when the
key is missing. -/
def EventMux.matchEvent (mux : EventMux) (event : String) :
    Result (Handler × String) :=
  match mux.lookup event with
  | some v => .ok (v.handler, v.event)
  | none => .panic ("events: missing handler for " ++ event)

/-- `eventMatch`. -/
def eventMatch (event : String) (inputEvent : String) : Bool :=
  if event.length = 0 then false else decide (inputEvent = event)

/-- Registries built from `NewEventMux` by `Handle` calls that returned. -/
inductive Reachable : EventMux → Prop where
  | new : Reachable NewEventMux
  | handle {mux mux' : EventMux} {event : String} {handler : Handler} :
      Reachable mux → mux.Handle event handler = .ok mux' → Reachable mux'

/-- Replays a list of registrations from `NewEventMux`, stopping at the first
panic. -/
def registerAll : List (String × Handler) → EventMux → Result EventMux
  | [], mux => .ok mux
  | (t, h) :: rest, mux =>
    match mux.Handle t h with
    | .ok mux' => registerAll rest mux'
    | .panic msg => .panic msg

/-! ## client.go: data -/

/-- The constant `RTMMessage`. -/
def RTMMessage : String := "message"

/-- A Go error value.  `plain msg` is an error whose `Error()` text is `msg`.
`methodValue format cause` is `errors.Errorf(format, cause.Error)`: the
argument handed to the `%s` verb is the method value `cause.Error`, not the
text it would return. -/
inductive GoError where
  | plain (msg : String)
  | methodValue (format : String) (cause : GoError)
  deriving Repr, DecidableEq

/-- The field `self` of `respRtmStart`. -/
structure respRtmStartSelf where
  ID : String
  Name : String
  Created : Int
  ManualPresence : String
  deriving Repr, DecidableEq

/-- The struct `respRtmStart`, restricted to the fields `ok`, `url`, `self`
and `error`; the other decoded fields are never read. -/
structure respRtmStart where
  Ok : Bool
  URL : String
  Self : respRtmStartSelf
  Error : String
  deriving Repr, DecidableEq

/-- The field `error` of `Message`. -/
structure MessageError where
  Code : Int
  Msg : String
  deriving Repr, DecidableEq

/-- The struct `Message`; `ID` is a `uint64`.  The Go field `Type` is
`Type_` here. -/
structure Message where
  ID : Nat
  Type_ : String
  Error : MessageError
  ReplyTo : Int
  Channel : String
  Ts : String
  User : String
  Text : String
  deriving Repr, DecidableEq

/-- The struct `Client`.  `conn` is the pointer to the websocket connection
(`none` is nil, `some r` a connection with identity `r`), `counter` a
`uint64`, `mux` a pointer that may be nil. -/
structure Client where
  id : String
  conn : Option Nat
  apiURL : String
  token : String
  counter : Nat
  mux : Option EventMux
  deriving Repr, DecidableEq

/-- `NewClient`: only `apiURL`, `token` and `mux` are set. -/
def NewClient (token : String) (mux : Option EventMux) : Client :=
  ⟨"", none, "https://slack.com/api", token, 0, mux⟩

/-! ## The outside world -/

/-- What `http.Get` hands back when it succeeds: the status code and the
result of `ioutil.ReadAll` on the body. -/
structure HttpResponse where
  StatusCode : Int
  Body : Except String String

/-- The values returned by `websocket.DefaultDialer.Dial`: the connection
pointer (the response is discarded) and the error. -/
structure DialResult where
  conn : Option Nat
  err : Option String
  deriving Repr, DecidableEq

/-- The external calls made by `start` and `Connect`. -/
structure World where
  httpGet : String → Except String HttpResponse
  unmarshal : String → Except String respRtmStart
  dial : String → DialResult

/-- One result of `conn.ReadJSON`: a decoded message or an error. -/
inductive ReadResult where
  | frame (msg : Message)
  | fail (err : String)
  deriving Repr, DecidableEq

/-- A frame written to the connection. -/
inductive Frame where
  | json (msg : Message)
  | close (code : Nat) (reason : String)
  deriving Repr, DecidableEq

/-- Observable state of the websocket connection: the results its next reads
will deliver, in order (with none left, a read blocks), the frames written so
far, and how many times its `Close` has been performed. -/
structure Wire where
  inbound : List ReadResult
  written : List Frame
  closes : Nat
  deriving Repr, DecidableEq

/-- The panic raised by a method call through a nil pointer or nil interface. -/
def nilDeref : String :=
  "runtime error: invalid memory address or nil pointer dereference"

/-! ## client.go: handshake and connect -/

/-- `Client.start`: the client after the call, the returned `wsurl` and the
returned `err`. -/
def Client.start (w : World) (c : Client) : Client × String × Option GoError :=
  let url := c.apiURL ++ "/rtm.start?token=" ++ c.token
  match w.httpGet url with
  | .error e => (c, "", some (.plain e))
  | .ok resp =>
    if resp.StatusCode ≠ 200 then
      (c, "", some (.plain ("API request failed with code " ++ toString resp.StatusCode)))
    else
      match resp.Body with
      | .error e => (c, "", some (.plain e))
      | .ok body =>
        match w.unmarshal body with
        | .error e => (c, "", some (.plain e))
        | .ok respObj =>
          if !respObj.Ok then
            (c, "", some (.plain ("Slack error: " ++ respObj.Error)))
          else
            ({ c with id := respObj.Self.ID }, respObj.URL, none)

/-- How `Connect` ends: it returns its error value, or `log.Fatal` prints the
error and terminates the process. -/
inductive ConnectOutcome where
  | returned (err : Option GoError)
  | fatal (logged : GoError)
  deriving Repr, DecidableEq

/-- A run of `Connect`: how it ended, the client fields at that point, and the
URLs handed to the dialer, in order. -/
structure ConnectRun where
  outcome : ConnectOutcome
  client : Client
  dialled : List String
  deriving Repr, DecidableEq

/-- `Client.Connect`.  Both error branches call `log.Fatal`, which exits the
process, so the `return errors.Errorf(...)` after each is never reached. -/
def Client.Connect (w : World) (c : Client) : ConnectRun :=
  match c.start w with
  | (c1, _, some err) => ⟨.fatal err, c1, []⟩
  | (c1, wsurl, none) =>
    let d := w.dial wsurl
    let c2 := { c1 with conn := d.conn }
    match d.err with
    | some err => ⟨.fatal (.plain err), c2, [wsurl]⟩
    | none => ⟨.returned none, c2, [wsurl]⟩

/-! ## client.go: receive loop -/

/-- A goroutine started by `go v.handler.ServeEvent(msg, c)`. -/
structure Invocation where
  handler : Handler
  msg : Message
  client : Client
  deriving Repr, DecidableEq

/-- A line handed to the logger by `Dispatch`. -/
inductive LogLine where
  | read (err : GoError)
  | recv (msg : Message)
  deriving Repr, DecidableEq

/-- How a run of `Dispatch` ends: it returns, it panics, or it is left waiting
in a read that delivers nothing. -/
inductive DispatchOutcome where
  | returned
  | blocked
  | panicked (msg : String)
  deriving Repr, DecidableEq

/-- A run of `Dispatch`: the goroutines scheduled, in order, the lines logged,
in order, and the connection afterwards. -/
structure DispatchRun where
  outcome : DispatchOutcome
  scheduled : List Invocation
  log : List LogLine
  wire : Wire
  deriving Repr, DecidableEq

/-- The error `getMessage` returns when `ReadJSON` failed with `err`. -/
def getMessageError (err : String) : GoError :=
  .methodValue "Client getMessage error: %s" (.plain err)

/-- The `for` loop of `Dispatch` on a non-nil connection, one case per result
of `getMessage`; the deferred `c.conn.Close()` is performed when the function
returns or panics.  Reading `c.mux.m` through a nil `mux` panics, and so does
the method call `v.handler.ServeEvent` on an entry whose handler is the nil
interface. -/
def Client.dispatchLoop (c : Client) (k : Wire) : List ReadResult → DispatchRun
  | [] => ⟨.blocked, [], [], { k with inbound := [] }⟩
  | .fail err :: rest =>
    ⟨.returned, [], [.read (getMessageError err)],
      { k with inbound := rest, closes := k.closes + 1 }⟩
  | .frame msg :: rest =>
    match c.mux with
    | none =>
      ⟨.panicked nilDeref, [], [], { k with inbound := rest, closes := k.closes + 1 }⟩
    | some mux =>
      match mux.lookup msg.Type_ with
      | some v =>
        if v.handler = Handler.nil then
          ⟨.panicked nilDeref, [], [], { k with inbound := rest, closes := k.closes + 1 }⟩
        else
          let r := c.dispatchLoop k rest
          { r with scheduled := ⟨v.handler, msg, c⟩ :: r.scheduled }
      | none =>
        let r := c.dispatchLoop k rest
        { r with log := .recv msg :: r.log }

/-- `Client.Dispatch`.  With a nil connection the first `ReadJSON` panics, and
so does the deferred close. -/
def Client.Dispatch (c : Client) (k : Wire) : DispatchRun :=
  match c.conn with
  | none => ⟨.panicked nilDeref, [], [], k⟩
  | some _ => c.dispatchLoop k k.inbound

/-! ## client.go: teardown and send -/

/-- `Client.Shutdown`; `werr` is what `conn.WriteMessage` returns for the close
frame (code 1000, `CloseNormalClosure`, empty reason). -/
def Client.Shutdown (c : Client) (k : Wire) (werr : Option String) :
    Wire × Result (Option GoError) :=
  match c.conn with
  | none => (k, .panic nilDeref)
  | some _ =>
    match werr with
    | some e => (k, .ok (some (.methodValue "Client Shutdown error: %s" (.plain e))))
    | none => ({ k with written := k.written ++ [.close 1000 ""] }, .ok none)

/-- `Client.Close`: one `Close` on the connection, its result discarded. -/
def Client.Close (c : Client) (k : Wire) : Wire × Result Unit :=
  match c.conn with
  | none => (k, .panic nilDeref)
  | some _ => ({ k with closes := k.closes + 1 }, .ok ())

/-- A run of `PostMessage`: the client and the caller's message afterwards,
the connection, and the returned error or the panic. -/
structure PostRun where
  client : Client
  msg : Message
  wire : Wire
  result : Result (Option GoError)
  deriving Repr, DecidableEq

/-- `Client.PostMessage`; `werr` is what `conn.WriteJSON` returns.  The
counter is a `uint64`, so `atomic.AddUint64` wraps at `2 ^ 64`. -/
def Client.PostMessage (c : Client) (k : Wire) (m : Message) (werr : Option String) :
    PostRun :=
  let id := (c.counter + 1) % 2 ^ 64
  let c1 := { c with counter := id }
  let m1 := { m with ID := id }
  match c.conn with
  | none => ⟨c1, m1, k, .panic nilDeref⟩
  | some _ =>
    match werr with
    | some e => ⟨c1, m1, k, .ok (some (.methodValue "Client PostMessage error: %s" (.plain e)))⟩
    | none => ⟨c1, m1, { k with written := k.written ++ [.json m1] }, .ok none⟩

/-- A sequence of `PostMessage` calls on one client, each with its message and
the outcome of its write: the runs, in call order. -/
def postAll : Client → Wire → List (Message × Option String) → List PostRun
  | _, _, [] => []
  | c, k, (m, werr) :: rest =>
    let r := c.PostMessage k m werr
    r :: postAll r.client r.wire rest

/-- The registry invariant: every entry present is non-empty-keyed, explicit,
carries its own key in `event`, and has a non-nil handler. -/
def EntriesOk (mux : EventMux) : Prop :=
  ∀ t v, mux.lookup t = some v →
    t ≠ "" ∧ v.explicit = true ∧ v.event = t ∧ v.handler ≠ Handler.nil

/-! ## Concrete values used in the examples -/

/-- The registry after `NewEventMux` and `Handle("message", h1)`. -/
def messageMux : EventMux :=
  ⟨some [("message", ⟨true, Handler.impl 1, "message"⟩)]⟩

/-- A client as `NewClient` and a successful `Connect` leave it: session id
`U1`, connection `0`, counter `0`, registry `messageMux`. -/
def connectedClient : Client :=
  ⟨"U1", some 0, "https://slack.com/api", "xoxb-token", 0, some messageMux⟩

/-- A message with every field but `type`, `channel` and `text` zero. -/
def textMessage (type channel text : String) : Message :=
  ⟨0, type, ⟨0, ""⟩, 0, channel, "", "", text⟩

/-- A connection on which nothing was written or closed yet and whose reads
deliver `inbound`. -/
def freshWire (inbound : List ReadResult) : Wire := ⟨inbound, [], 0⟩

/-- A world whose handshake answers status 200 with the decoded reply
`reply`, and whose dialer answers `d` for every URL. -/
def worldWith (reply : respRtmStart) (d : DialResult) : World :=
  ⟨fun _ => .ok ⟨200, .ok "body"⟩, fun _ => .ok reply, fun _ => d⟩

/-! ## Lemmas on the map and the registry -/

theorem mapGet_filter_ne (m : List (String × muxEntry)) (k k' : String) (h : k' ≠ k) :
    mapGet (m.filter (fun p => decide (p.1 ≠ k))) k' = mapGet m k' := by
  induction m with
  | nil => rfl
  | cons p rest ih =>
    obtain ⟨a, b⟩ := p
    by_cases hak : a = k
    · have hne : ¬ a = k' := fun e => h (e.symm.trans hak)
      rw [List.filter_cons_of_neg (by simpa using hak), ih]
      simp [mapGet, hne]
    · rw [List.filter_cons_of_pos (by simpa using hak)]
      by_cases hak' : a = k'
      · simp [mapGet, hak']
      · simp only [mapGet, hak', if_false]
        exact ih

theorem mapGet_mapSet_same (m : List (String × muxEntry)) (k : String) (v : muxEntry) :
    mapGet (mapSet m k v) k = some v := by
  simp [mapSet, mapGet]

theorem mapGet_mapSet_other (m : List (String × muxEntry)) (k k' : String) (v : muxEntry)
    (h : k' ≠ k) : mapGet (mapSet m k v) k' = mapGet m k' := by
  have hne : ¬ k = k' := fun e => h e.symm
  simp only [mapSet, mapGet, hne, if_false]
  exact mapGet_filter_ne m k k' h

theorem lookup_mk_mapSet (mux : EventMux) (k k' : String) (v : muxEntry) :
    (EventMux.mk (some (mapSet (match mux.m with
      | none => []
      | some m => m) k v))).lookup k' = if k' = k then some v else mux.lookup k' := by
  by_cases h : k' = k
  · subst h
    simp [EventMux.lookup, mapGet_mapSet_same]
  · simp only [EventMux.lookup, h, if_false]
    rw [mapGet_mapSet_other _ _ _ _ h]
    cases mux.m <;> rfl

theorem Handle_eq_ok (mux mux' : EventMux) (t : String) (h : Handler)
    (hok : mux.Handle t h = .ok mux') :
    t ≠ "" ∧ h ≠ Handler.nil ∧ (mux.index t).explicit = false ∧
      ∀ k, mux'.lookup k = if k = t then some ⟨true, h, t⟩ else mux.lookup k := by
  unfold EventMux.Handle at hok
  by_cases h1 : t = ""
  · simp [h1] at hok
  by_cases h2 : h = Handler.nil
  · simp [h1, h2] at hok
  by_cases h3 : (mux.index t).explicit = true
  · simp [h1, h2, h3] at hok
  simp only [h1, h2, h3, if_false] at hok
  injection hok with hok
  subst hok
  refine ⟨h1, h2, by simpa using h3, fun k => ?_⟩
  exact lookup_mk_mapSet mux t k ⟨true, h, t⟩

theorem Handle_ok_of (mux : EventMux) (t : String) (h : Handler)
    (h1 : t ≠ "") (h2 : h ≠ Handler.nil) (h3 : (mux.index t).explicit = false) :
    ∃ mux', mux.Handle t h = .ok mux' := by
  unfold EventMux.Handle
  simp [h1, h2, h3]

theorem entriesOk_new : EntriesOk NewEventMux := by
  intro t v hv
  simp [NewEventMux, EventMux.lookup] at hv

theorem entriesOk_Handle (mux mux' : EventMux) (t : String) (h : Handler)
    (inv : EntriesOk mux) (hok : mux.Handle t h = .ok mux') : EntriesOk mux' := by
  obtain ⟨h1, h2, _, hl⟩ := Handle_eq_ok mux mux' t h hok
  intro k v hv
  rw [hl k] at hv
  by_cases hk : k = t
  · subst hk
    simp only [if_true, Option.some.injEq] at hv
    subst hv
    exact ⟨h1, rfl, rfl, h2⟩
  · simp only [hk, if_false] at hv
    exact inv k v hv

theorem reachable_entriesOk (mux : EventMux) (hr : Reachable mux) : EntriesOk mux := by
  induction hr with
  | new => exact entriesOk_new
  | handle _ hok ih => exact entriesOk_Handle _ _ _ _ ih hok

theorem index_explicit_of_lookup_none (mux : EventMux) (t : String)
    (h : mux.lookup t = none) : (mux.index t).explicit = false := by
  simp [EventMux.index, h, muxEntry.zero]

theorem index_explicit_iff (mux : EventMux) (inv : EntriesOk mux) (t : String) :
    (mux.index t).explicit = true ↔ ∃ v, mux.lookup t = some v := by
  constructor
  · intro he
    cases hl : mux.lookup t with
    | none => simp [index_explicit_of_lookup_none mux t hl] at he
    | some v => exact ⟨v, rfl⟩
  · rintro ⟨v, hv⟩
    simp [EventMux.index, hv, (inv t v hv).2.1]

/-! ## Registration and lookup -/

/-- C2: on every registry (so on every one built by `NewEventMux` and
successful `Handle` calls), for a non-empty tag `t` with no entry yet and a
non-nil handler `h`, `Handle t h` returns; afterwards the entry of `t` is
exactly `explicit = true`, `handler = h`, `event = t`, `match t` returns `h`,
and the entry of every other tag is what it was. -/
theorem C2_handle_registers_entry (mux : EventMux) (t : String) (h : Handler)
    (ht : t ≠ "") (hh : h ≠ Handler.nil) (hnew : mux.lookup t = none) :
    ∃ mux', mux.Handle t h = .ok mux' ∧
      mux'.lookup t = some ⟨true, h, t⟩ ∧
      mux'.matchEvent t = .ok (h, t) ∧
      ∀ t', t' ≠ t → mux'.lookup t' = mux.lookup t' := by
  obtain ⟨mux', hok⟩ :=
    Handle_ok_of mux t h ht hh (index_explicit_of_lookup_none mux t hnew)
  obtain ⟨_, _, _, hl⟩ := Handle_eq_ok mux mux' t h hok
  have hself : mux'.lookup t = some ⟨true, h, t⟩ := by simpa using hl t
  refine ⟨mux', hok, hself, ?_, ?_⟩
  · simp [EventMux.matchEvent, hself]
  · intro t' hne
    simpa [hne] using hl t'

theorem C2_handle_registers_entry_witness :
    ∃ mux', NewEventMux.Handle "message" (Handler.impl 1) = .ok mux' ∧
      mux'.lookup "message" = some ⟨true, Handler.impl 1, "message"⟩ ∧
      mux'.matchEvent "message" = .ok (Handler.impl 1, "message") ∧
      ∀ t', t' ≠ "message" → mux'.lookup t' = NewEventMux.lookup t' :=
  C2_handle_registers_entry NewEventMux "message" (Handler.impl 1)
    (by decide) (by decide) rfl

/-- C3: on a registry built by `NewEventMux` and successful `Handle` calls,
`Handle t h` panics exactly when `t` is empty, `h` is nil, or `t` already has
an entry; `Handle "" h'` panics for every `h'`; and after a successful
`Handle t h` a second `Handle t h2` panics, the handler found for `t` still
being `h`. -/
theorem C3_handle_rejects_iff (mux : EventMux) (t : String) (h : Handler)
    (hr : Reachable mux) :
    ((mux.Handle t h).isPanic = true ↔
      (t = "" ∨ h = Handler.nil ∨ ∃ v, mux.lookup t = some v)) ∧
    (∀ h', (mux.Handle "" h').isPanic = true) ∧
    (∀ mux' h2, mux.Handle t h = .ok mux' →
      (mux'.Handle t h2).isPanic = true ∧ mux'.matchEvent t = .ok (h, t)) := by
  have inv := reachable_entriesOk mux hr
  refine ⟨?_, ?_, ?_⟩
  · rw [← index_explicit_iff mux inv t]
    unfold EventMux.Handle
    by_cases h1 : t = ""
    · simp [h1, Result.isPanic]
    by_cases h2 : h = Handler.nil
    · simp [h1, h2, Result.isPanic]
    by_cases h3 : (mux.index t).explicit = true
    · simp [h1, h2, h3, Result.isPanic]
    · simp [h1, h2, h3, Result.isPanic]
  · intro h'
    simp [EventMux.Handle, Result.isPanic]
  · intro mux' h2 hok
    obtain ⟨h1, _, _, hl⟩ := Handle_eq_ok mux mux' t h hok
    have hself : mux'.lookup t = some ⟨true, h, t⟩ := by simpa using hl t
    constructor
    · unfold EventMux.Handle
      by_cases hn : h2 = Handler.nil
      · simp [h1, hn, Result.isPanic]
      · simp [h1, hn, EventMux.index, hself, Result.isPanic]
    · simp [EventMux.matchEvent, hself]

theorem C3_handle_rejects_iff_witness :
    ((messageMux.Handle
        "message" (Handler.impl 2)).isPanic = true ↔
      ("message" = "" ∨ Handler.impl 2 = Handler.nil ∨
        ∃ v, messageMux.lookup
          "message" = some v)) ∧
    (∀ h', (messageMux.Handle
        "" h').isPanic = true) ∧
    (∀ mux' h2,
      messageMux.Handle
        "message" (Handler.impl 2) = .ok mux' →
      (mux'.Handle "message" h2).isPanic = true ∧
        mux'.matchEvent "message" = .ok (Handler.impl 2, "message")) :=
  C3_handle_rejects_iff _ "message" (Handler.impl 2)
    (@Reachable.handle NewEventMux _ "message" (Handler.impl 1) Reachable.new rfl)

/-- C9: on a registry built by `NewEventMux` and successful `Handle` calls, if
`t` has an entry with handler `h` then `match t` returns `(h, t)`, the matched
type being the queried tag; if `t` has no entry, `match t` panics and returns
no handler. -/
theorem C9_match_exact_or_panics (mux : EventMux) (t : String) (hr : Reachable mux) :
    (∀ v, mux.lookup t = some v → mux.matchEvent t = .ok (v.handler, t)) ∧
    (mux.lookup t = none →
      mux.matchEvent t = .panic ("events: missing handler for " ++ t)) := by
  have inv := reachable_entriesOk mux hr
  constructor
  · intro v hv
    simp [EventMux.matchEvent, hv, (inv t v hv).2.2.1]
  · intro hn
    simp [EventMux.matchEvent, hn]

theorem C9_match_exact_or_panics_witness :
    (∀ v, messageMux.lookup
        "message" = some v →
      messageMux.matchEvent
        "message" = .ok (v.handler, "message")) ∧
    (messageMux.lookup
        "message" = none →
      messageMux.matchEvent
        "message" = .panic ("events: missing handler for " ++ "message")) :=
  C9_match_exact_or_panics _ "message"
    (@Reachable.handle NewEventMux _ "message" (Handler.impl 1) Reachable.new rfl)

/-! ## The receive loop -/

theorem dispatchLoop_frames (c : Client) (mux : EventMux) (k : Wire)
    (evs : List Message) (e : String) (rest : List ReadResult)
    (hmux : c.mux = some mux)
    (hnil : ∀ t v, mux.lookup t = some v → v.handler ≠ Handler.nil) :
    c.dispatchLoop k (evs.map ReadResult.frame ++ ReadResult.fail e :: rest) =
      ⟨.returned,
        evs.filterMap (fun msg =>
          (mux.lookup msg.Type_).map (fun v => Invocation.mk v.handler msg c)),
        evs.filterMap (fun msg =>
          match mux.lookup msg.Type_ with
          | none => some (LogLine.recv msg)
          | some _ => none) ++ [LogLine.read (getMessageError e)],
        { k with inbound := rest, closes := k.closes + 1 }⟩ := by
  induction evs with
  | nil => simp [Client.dispatchLoop]
  | cons msg evs ih =>
    simp only [List.map_cons, List.cons_append, Client.dispatchLoop, hmux]
    cases hl : mux.lookup msg.Type_ with
    | none => simp [ih, List.filterMap_cons, hl]
    | some v => simp [ih, List.filterMap_cons, hl, hnil _ v hl]

theorem dispatchLoop_returned_closes (c : Client) (k : Wire) (l : List ReadResult)
    (h : (c.dispatchLoop k l).outcome = .returned) :
    (c.dispatchLoop k l).wire.closes = k.closes + 1 := by
  induction l with
  | nil => simp [Client.dispatchLoop] at h
  | cons r rest ih =>
    cases r with
    | fail err => simp [Client.dispatchLoop]
    | frame msg =>
      simp only [Client.dispatchLoop] at h ⊢
      cases hm : c.mux with
      | none => simp [hm] at h
      | some mux =>
        simp only [hm] at h ⊢
        cases hl : mux.lookup msg.Type_ with
        | none =>
          simp only [hl] at h ⊢
          exact ih h
        | some v =>
          simp only [hl] at h ⊢
          by_cases hv : v.handler = Handler.nil
          · simp [hv] at h
          · simp only [hv, if_false] at h ⊢
            exact ih h

/-- C1: for a client with a registry that has no nil-handler entry (every
registry built by `NewEventMux` and `Handle` is one) and a connection, when the
reads deliver the events `evs` and then fail with `e`, `Dispatch` returns; the
goroutines it scheduled are, in wire order, one per event whose type has an
entry, carrying that entry's handler, the event unchanged and the client;
events whose type has no entry are only logged; the last log line is the read
failure; and the results after the failure are left unread. -/
theorem C1_dispatch_schedules_registered_in_order (c : Client) (mux : EventMux)
    (r : Nat) (k : Wire) (evs : List Message) (e : String) (rest : List ReadResult)
    (hmux : c.mux = some mux) (hconn : c.conn = some r)
    (hnil : ∀ t v, mux.lookup t = some v → v.handler ≠ Handler.nil)
    (hin : k.inbound = evs.map ReadResult.frame ++ ReadResult.fail e :: rest) :
    (c.Dispatch k).outcome = .returned ∧
    (c.Dispatch k).scheduled =
      evs.filterMap (fun msg =>
        (mux.lookup msg.Type_).map (fun v => Invocation.mk v.handler msg c)) ∧
    (c.Dispatch k).log =
      evs.filterMap (fun msg =>
        match mux.lookup msg.Type_ with
        | none => some (LogLine.recv msg)
        | some _ => none) ++ [LogLine.read (getMessageError e)] ∧
    (c.Dispatch k).wire.inbound = rest := by
  have h := dispatchLoop_frames c mux k evs e rest hmux hnil
  simp only [Client.Dispatch, hconn, hin, h, and_self]

theorem C1_dispatch_schedules_registered_in_order_witness :
    (connectedClient.Dispatch (freshWire
        [.frame (textMessage "message" "C1" "hi"), .frame (textMessage "unknown_x" "C1" "?"),
          .frame (textMessage "message" "C2" "yo"), .fail "EOF",
          .frame (textMessage "message" "C3" "late")])).outcome = .returned ∧
    (connectedClient.Dispatch (freshWire
        [.frame (textMessage "message" "C1" "hi"), .frame (textMessage "unknown_x" "C1" "?"),
          .frame (textMessage "message" "C2" "yo"), .fail "EOF",
          .frame (textMessage "message" "C3" "late")])).scheduled =
      [⟨Handler.impl 1, textMessage "message" "C1" "hi", connectedClient⟩,
        ⟨Handler.impl 1, textMessage "message" "C2" "yo", connectedClient⟩] ∧
    (connectedClient.Dispatch (freshWire
        [.frame (textMessage "message" "C1" "hi"), .frame (textMessage "unknown_x" "C1" "?"),
          .frame (textMessage "message" "C2" "yo"), .fail "EOF",
          .frame (textMessage "message" "C3" "late")])).log =
      [.recv (textMessage "unknown_x" "C1" "?"), .read (getMessageError "EOF")] ∧
    (connectedClient.Dispatch (freshWire
        [.frame (textMessage "message" "C1" "hi"), .frame (textMessage "unknown_x" "C1" "?"),
          .frame (textMessage "message" "C2" "yo"), .fail "EOF",
          .frame (textMessage "message" "C3" "late")])).wire.inbound =
      [.frame (textMessage "message" "C3" "late")] :=
  C1_dispatch_schedules_registered_in_order connectedClient messageMux 0 _
    [textMessage "message" "C1" "hi", textMessage "unknown_x" "C1" "?",
      textMessage "message" "C2" "yo"] "EOF" [.frame (textMessage "message" "C3" "late")]
    rfl rfl
    (fun t v hv => (reachable_entriesOk messageMux
      (@Reachable.handle NewEventMux _ "message" (Handler.impl 1) Reachable.new rfl)
      t v hv).2.2.2)
    rfl

/-- C10: a registry built by `NewEventMux` and successful `Handle` calls has no
entry for the empty tag, and every entry it has is explicit and carries its
own key in `event`; so in every run of `Dispatch` that reads events and then a
failure, no scheduled goroutine carries an event of empty type, and every
event of empty type is logged as dropped. -/
theorem C10_empty_type_never_matched (mux : EventMux) (hr : Reachable mux) :
    mux.lookup "" = none ∧
    (∀ t v, mux.lookup t = some v → v.explicit = true ∧ v.event = t) ∧
    ∀ (c : Client) (r : Nat) (k : Wire) (evs : List Message) (e : String)
      (rest : List ReadResult),
      c.mux = some mux → c.conn = some r →
      k.inbound = evs.map ReadResult.frame ++ ReadResult.fail e :: rest →
      (∀ inv ∈ (c.Dispatch k).scheduled, inv.msg.Type_ ≠ "") ∧
      (∀ msg ∈ evs, msg.Type_ = "" → LogLine.recv msg ∈ (c.Dispatch k).log) := by
  have inv := reachable_entriesOk mux hr
  have hempty : mux.lookup "" = none := by
    cases hl : mux.lookup "" with
    | none => rfl
    | some v => exact absurd rfl (inv "" v hl).1
  refine ⟨hempty, fun t v hv => ⟨(inv t v hv).2.1, (inv t v hv).2.2.1⟩, ?_⟩
  intro c r k evs e rest hmux hconn hin
  have h := dispatchLoop_frames c mux k evs e rest hmux
    (fun t v hv => (inv t v hv).2.2.2)
  have hd : c.Dispatch k =
      c.dispatchLoop k (evs.map ReadResult.frame ++ ReadResult.fail e :: rest) := by
    simp only [Client.Dispatch, hconn, hin]
  rw [hd, h]
  constructor
  · intro i hi
    simp only [List.mem_filterMap, Option.map_eq_some'] at hi
    obtain ⟨msg, _, v, hv, rfl⟩ := hi
    exact fun h0 => (inv _ v hv).1 h0
  · intro msg hmem h0
    simp only [List.mem_append, List.mem_filterMap]
    left
    refine ⟨msg, hmem, ?_⟩
    rw [h0, hempty]

theorem C10_empty_type_never_matched_witness :
    messageMux.lookup "" = none ∧
    (∀ t v, messageMux.lookup t = some v → v.explicit = true ∧ v.event = t) ∧
    ∀ (c : Client) (r : Nat) (k : Wire) (evs : List Message) (e : String)
      (rest : List ReadResult),
      c.mux = some messageMux → c.conn = some r →
      k.inbound = evs.map ReadResult.frame ++ ReadResult.fail e :: rest →
      (∀ inv ∈ (c.Dispatch k).scheduled, inv.msg.Type_ ≠ "") ∧
      (∀ msg ∈ evs, msg.Type_ = "" → LogLine.recv msg ∈ (c.Dispatch k).log) :=
  C10_empty_type_never_matched messageMux
    (@Reachable.handle NewEventMux _ "message" (Handler.impl 1) Reachable.new rfl)

/-! ## Teardown -/

/-- C7 fails as stated: on a connected client whose first read fails,
`Dispatch` returns having already performed the close once, and the caller's
`Close` performs it a second time. -/
theorem C7_counterexample :
    (connectedClient.Dispatch (freshWire [.fail "EOF"])).outcome = .returned ∧
    (connectedClient.Dispatch (freshWire [.fail "EOF"])).wire.closes = 1 ∧
    (connectedClient.Close
      (connectedClient.Dispatch (freshWire [.fail "EOF"])).wire).1.closes = 2 ∧
    (freshWire [.fail "EOF"]).closes = 0 := by
  decide

/-- C7 as amended: whenever `Dispatch` returns (which it does only on a read
failure), its deferred close has been performed exactly once by then, and a
`Close` by the caller afterwards returns normally and performs the close once
more, twice in total. -/
theorem C7_dispatch_closes_then_close_again (c : Client) (k : Wire)
    (h : (c.Dispatch k).outcome = .returned) :
    (c.Dispatch k).wire.closes = k.closes + 1 ∧
    (c.Close (c.Dispatch k).wire).2 = .ok () ∧
    (c.Close (c.Dispatch k).wire).1.closes = k.closes + 2 := by
  cases hc : c.conn with
  | none => simp [Client.Dispatch, hc] at h
  | some r =>
    simp only [Client.Dispatch, hc] at h ⊢
    have := dispatchLoop_returned_closes c k k.inbound h
    simp [Client.Close, hc, this]

theorem C7_dispatch_closes_then_close_again_witness :
    (connectedClient.Dispatch (freshWire [.frame (textMessage "message" "C1" "hi"),
        .fail "EOF"])).wire.closes = (freshWire [.frame (textMessage "message" "C1" "hi"),
        .fail "EOF"]).closes + 1 ∧
    (connectedClient.Close (connectedClient.Dispatch (freshWire
        [.frame (textMessage "message" "C1" "hi"), .fail "EOF"])).wire).2 = .ok () ∧
    (connectedClient.Close (connectedClient.Dispatch (freshWire
        [.frame (textMessage "message" "C1" "hi"), .fail "EOF"])).wire).1.closes =
      (freshWire [.frame (textMessage "message" "C1" "hi"), .fail "EOF"]).closes + 2 :=
  C7_dispatch_closes_then_close_again connectedClient _ (by decide)

/-- C8 fails as stated: on a client fresh from `NewClient`, whose connection
is nil, `Close` panics. -/
theorem C8_counterexample :
    ((NewClient "xoxb-token" (some NewEventMux)).Close (freshWire [])).2 =
      .panic nilDeref ∧
    ((NewClient "xoxb-token" (some NewEventMux)).Close (freshWire [])).2.isPanic = true := by
  decide

/-- C8 as amended: `Close` returns normally exactly when the client holds a
connection, and panics exactly when it holds none; on a client that holds one
it also returns normally after a `Shutdown` (whatever its write returned) and
after an earlier `Close`, each call performing one more close. -/
theorem C8_close_returns_iff_connected (c : Client) (k : Wire) (werr : Option String) :
    ((c.Close k).2 = .ok () ↔ c.conn ≠ none) ∧
    ((c.Close k).2.isPanic = true ↔ c.conn = none) ∧
    (c.Close (c.Shutdown k werr).1).2 = (c.Close k).2 ∧
    (c.Close (c.Close k).1).2 = (c.Close k).2 ∧
    ((c.Close k).1.closes = if c.conn = none then k.closes else k.closes + 1) := by
  cases hc : c.conn with
  | none => simp [Client.Close, Client.Shutdown, hc, Result.isPanic]
  | some r =>
    cases werr <;> simp [Client.Close, Client.Shutdown, hc, Result.isPanic]

/-! ## Outbound ids -/

theorem PostMessage_id (c : Client) (k : Wire) (m : Message) (werr : Option String) :
    (c.PostMessage k m werr).msg.ID = (c.counter + 1) % 2 ^ 64 ∧
    (c.PostMessage k m werr).client.counter = (c.counter + 1) % 2 ^ 64 := by
  unfold Client.PostMessage
  cases c.conn with
  | none => exact ⟨rfl, rfl⟩
  | some r => cases werr <;> exact ⟨rfl, rfl⟩

theorem postAll_getElem (c : Client) (k : Wire) (calls : List (Message × Option String))
    (i : Nat) (hi : i < calls.length) :
    ∃ r, (postAll c k calls)[i]? = some r ∧
      r.msg.ID = (c.counter + i + 1) % 2 ^ 64 ∧ r.client.counter = r.msg.ID := by
  induction calls generalizing c k i with
  | nil => simp at hi
  | cons p rest ih =>
    obtain ⟨m, werr⟩ := p
    obtain ⟨hid, hcnt⟩ := PostMessage_id c k m werr
    cases i with
    | zero =>
      refine ⟨c.PostMessage k m werr, by simp [postAll], ?_, ?_⟩
      · simpa using hid
      · rw [hid, hcnt]
    | succ j =>
      have hj : j < rest.length := by simpa using hi
      obtain ⟨r, h1, h2, h3⟩ :=
        ih (c.PostMessage k m werr).client (c.PostMessage k m werr).wire j hj
      refine ⟨r, by simpa [postAll] using h1, ?_, h3⟩
      rw [h2, hcnt]
      omega

/-- C4 fails as stated: the counter is a `uint64`, so on a client whose
counter is 0 the call number `2 ^ 64` writes the id 0. -/
theorem C4_counterexample :
    ∃ r, (postAll connectedClient (freshWire [])
        (List.replicate (2 ^ 64) (textMessage "message" "C1" "hi", none)))[2 ^ 64 - 1]?
        = some r ∧
      r.msg.ID = 0 ∧ r.msg.ID ≠ 2 ^ 64 := by
  obtain ⟨r, h1, h2, _⟩ := postAll_getElem connectedClient (freshWire [])
    (List.replicate (2 ^ 64) (textMessage "message" "C1" "hi", none)) (2 ^ 64 - 1)
    (by rw [List.length_replicate]; exact Nat.sub_lt (Nat.two_pow_pos 64) (by decide))
  have h0 : r.msg.ID = 0 := by
    rw [h2]
    show (0 + (2 ^ 64 - 1) + 1) % 2 ^ 64 = 0
    decide
  exact ⟨r, h1, h0, by rw [h0]; decide⟩

/-- C4 as amended: on a client whose counter is 0 (as `NewClient` leaves it),
in every sequence of `PostMessage` calls, whatever each write returns, the
call at position `i` (the call number `i + 1`) writes the id
`(i + 1) mod 2 ^ 64` into its message and leaves the counter at that value, so
the id is consumed whether or not the write succeeded; up to call number
`2 ^ 64 - 1` the id is the call number, with no gap and no duplicate. -/
theorem C4_post_ids_follow_call_number (c : Client) (k : Wire)
    (calls : List (Message × Option String)) (i : Nat)
    (hc : c.counter = 0) (hi : i < calls.length) :
    ∃ r, (postAll c k calls)[i]? = some r ∧
      r.msg.ID = (i + 1) % 2 ^ 64 ∧ r.client.counter = r.msg.ID ∧
      (i + 1 < 2 ^ 64 → r.msg.ID = i + 1) := by
  obtain ⟨r, h1, h2, h3⟩ := postAll_getElem c k calls i hi
  rw [hc, Nat.zero_add] at h2
  exact ⟨r, h1, h2, h3, fun hlt => by rw [h2, Nat.mod_eq_of_lt hlt]⟩

theorem C4_post_ids_follow_call_number_witness :
    ∃ r, (postAll connectedClient (freshWire [])
        [(textMessage "message" "C1" "a", none),
          (textMessage "message" "C1" "b", some "write: broken pipe"),
          (textMessage "message" "C1" "c", none)])[2]? = some r ∧
      r.msg.ID = (2 + 1) % 2 ^ 64 ∧ r.client.counter = r.msg.ID ∧
      (2 + 1 < 2 ^ 64 → r.msg.ID = 2 + 1) :=
  C4_post_ids_follow_call_number connectedClient (freshWire []) _ 2 rfl (by decide)

/-! ## Handshake and connect -/

theorem start_ok (w : World) (c : Client) (resp : HttpResponse) (body : String)
    (reply : respRtmStart)
    (hget : w.httpGet (c.apiURL ++ "/rtm.start?token=" ++ c.token) = .ok resp)
    (hstatus : resp.StatusCode = 200) (hbody : resp.Body = .ok body)
    (hdec : w.unmarshal body = .ok reply) (hok : reply.Ok = true) :
    c.start w = ({ c with id := reply.Self.ID }, reply.URL, none) := by
  simp [Client.start, hget, hstatus, hbody, hdec, hok]

theorem start_rejected (w : World) (c : Client) (resp : HttpResponse) (body : String)
    (reply : respRtmStart)
    (hget : w.httpGet (c.apiURL ++ "/rtm.start?token=" ++ c.token) = .ok resp)
    (hstatus : resp.StatusCode = 200) (hbody : resp.Body = .ok body)
    (hdec : w.unmarshal body = .ok reply) (hok : reply.Ok = false) :
    c.start w = (c, "", some (.plain ("Slack error: " ++ reply.Error))) := by
  simp [Client.start, hget, hstatus, hbody, hdec, hok]

theorem start_cases (w : World) (c : Client) :
    (∃ err, c.start w = (c, "", some err)) ∨
    ∃ resp body reply,
      w.httpGet (c.apiURL ++ "/rtm.start?token=" ++ c.token) = .ok resp ∧
      resp.StatusCode = 200 ∧ resp.Body = .ok body ∧
      w.unmarshal body = .ok reply ∧ reply.Ok = true := by
  cases hget : w.httpGet (c.apiURL ++ "/rtm.start?token=" ++ c.token) with
  | error e => exact Or.inl ⟨.plain e, by simp [Client.start, hget]⟩
  | ok resp =>
    by_cases hstatus : resp.StatusCode = 200
    · cases hbody : resp.Body with
      | error e => exact Or.inl ⟨.plain e, by simp [Client.start, hget, hstatus, hbody]⟩
      | ok body =>
        cases hdec : w.unmarshal body with
        | error e =>
          exact Or.inl ⟨.plain e, by simp [Client.start, hget, hstatus, hbody, hdec]⟩
        | ok reply =>
          cases hok : reply.Ok with
          | false => exact Or.inl ⟨_, start_rejected w c resp body reply hget hstatus hbody hdec hok⟩
          | true => exact Or.inr ⟨resp, body, reply, rfl, hstatus, hbody, hdec, hok⟩
    · exact Or.inl ⟨.plain ("API request failed with code " ++ toString resp.StatusCode),
        by simp [Client.start, hget, hstatus]⟩

/-- C5 fails as stated: with a successful handshake (`ok` true, url `wss://x`,
self id `U1`) followed by a dial that fails, the session id of a client whose
id was empty is `U1` when `Connect` ends. -/
theorem C5_counterexample :
    ((NewClient "xoxb-token" none).Connect
      (worldWith ⟨true, "wss://x", ⟨"U1", "bot", 0, ""⟩, ""⟩
        ⟨none, some "dial tcp: connection refused"⟩)).client.id = "U1" ∧
    (NewClient "xoxb-token" none).id = "" ∧
    ((NewClient "xoxb-token" none).Connect
      (worldWith ⟨true, "wss://x", ⟨"U1", "bot", 0, ""⟩, ""⟩
        ⟨none, some "dial tcp: connection refused"⟩)).outcome =
      .fatal (.plain "dial tcp: connection refused") := by
  decide

/-- C5 as amended: when the handshake answers status 200 with a decoded reply
whose `ok` is true, `Connect` dials the reply's url and nothing else, the
session id is the reply's self id and the handle is the connection value the
dial returned, whether or not the dial succeeded, and `Connect` returns nil
exactly when the dial reported no error; in every other case the handshake
returned an error, nothing is dialled and every field of the client is what
it was. -/
theorem C5_connect_state (w : World) (c : Client) :
    (∀ resp body reply,
      w.httpGet (c.apiURL ++ "/rtm.start?token=" ++ c.token) = .ok resp →
      resp.StatusCode = 200 → resp.Body = .ok body →
      w.unmarshal body = .ok reply → reply.Ok = true →
      (c.Connect w).dialled = [reply.URL] ∧
      (c.Connect w).client =
        { c with id := reply.Self.ID, conn := (w.dial reply.URL).conn } ∧
      ((c.Connect w).outcome = .returned none ↔ (w.dial reply.URL).err = none)) ∧
    ((¬ ∃ resp body reply,
        w.httpGet (c.apiURL ++ "/rtm.start?token=" ++ c.token) = .ok resp ∧
        resp.StatusCode = 200 ∧ resp.Body = .ok body ∧
        w.unmarshal body = .ok reply ∧ reply.Ok = true) →
      (c.Connect w).dialled = [] ∧ (c.Connect w).client = c ∧
      ∃ err, (c.Connect w).outcome = .fatal err) := by
  constructor
  · intro resp body reply hget hstatus hbody hdec hok
    have hs := start_ok w c resp body reply hget hstatus hbody hdec hok
    unfold Client.Connect
    rw [hs]
    cases hd : (w.dial reply.URL).err with
    | none => simp [hd]
    | some e => simp [hd]
  · intro hno
    rcases start_cases w c with ⟨err, hs⟩ | hyes
    · unfold Client.Connect
      rw [hs]
      exact ⟨rfl, rfl, err, rfl⟩
    · exact absurd hyes hno

theorem C5_connect_state_witness :
    ((NewClient "xoxb-token" none).Connect
      (worldWith ⟨true, "wss://x", ⟨"U1", "bot", 0, ""⟩, ""⟩ ⟨some 7, none⟩)).dialled
      = ["wss://x"] ∧
    ((NewClient "xoxb-token" none).Connect
      (worldWith ⟨true, "wss://x", ⟨"U1", "bot", 0, ""⟩, ""⟩ ⟨some 7, none⟩)).client =
      ⟨"U1", some 7, "https://slack.com/api", "xoxb-token", 0, none⟩ ∧
    (((NewClient "xoxb-token" none).Connect
      (worldWith ⟨true, "wss://x", ⟨"U1", "bot", 0, ""⟩, ""⟩ ⟨some 7, none⟩)).outcome
      = .returned none ↔
      ((worldWith ⟨true, "wss://x", ⟨"U1", "bot", 0, ""⟩, ""⟩ ⟨some 7, none⟩).dial
        "wss://x").err = none) :=
  (C5_connect_state (worldWith ⟨true, "wss://x", ⟨"U1", "bot", 0, ""⟩, ""⟩ ⟨some 7, none⟩)
    (NewClient "xoxb-token" none)).1 ⟨200, .ok "body"⟩ "body"
    ⟨true, "wss://x", ⟨"U1", "bot", 0, ""⟩, ""⟩ rfl rfl rfl rfl rfl

/-- C6, evaluated on the code: when the handshake answers status 200 with a
decoded reply whose `ok` is false and whose error is `e`, `Connect` does not
return: `log.Fatal` prints `Slack error: e` and ends the process.  Nothing is
dialled and the client, its connection handle included, is unchanged. -/
theorem C6_rejected_handshake_is_fatal (w : World) (c : Client) (resp : HttpResponse)
    (body : String) (reply : respRtmStart)
    (hget : w.httpGet (c.apiURL ++ "/rtm.start?token=" ++ c.token) = .ok resp)
    (hstatus : resp.StatusCode = 200) (hbody : resp.Body = .ok body)
    (hdec : w.unmarshal body = .ok reply) (hok : reply.Ok = false) :
    c.Connect w = ⟨.fatal (.plain ("Slack error: " ++ reply.Error)), c, []⟩ ∧
    ∀ err, (c.Connect w).outcome ≠ .returned err := by
  have hs := start_rejected w c resp body reply hget hstatus hbody hdec hok
  have hc : c.Connect w = ⟨.fatal (.plain ("Slack error: " ++ reply.Error)), c, []⟩ := by
    unfold Client.Connect
    rw [hs]
  refine ⟨hc, fun err => ?_⟩
  rw [hc]
  simp

theorem C6_rejected_handshake_is_fatal_witness :
    (NewClient "bad-token" none).Connect
        (worldWith ⟨false, "", ⟨"", "", 0, ""⟩, "invalid_auth"⟩ ⟨some 7, none⟩) =
      ⟨.fatal (.plain ("Slack error: " ++ "invalid_auth")), NewClient "bad-token" none, []⟩ ∧
    ∀ err, ((NewClient "bad-token" none).Connect
        (worldWith ⟨false, "", ⟨"", "", 0, ""⟩, "invalid_auth"⟩ ⟨some 7, none⟩)).outcome
      ≠ .returned err :=
  C6_rejected_handshake_is_fatal
    (worldWith ⟨false, "", ⟨"", "", 0, ""⟩, "invalid_auth"⟩ ⟨some 7, none⟩)
    (NewClient "bad-token" none) ⟨200, .ok "body"⟩ "body"
    ⟨false, "", ⟨"", "", 0, ""⟩, "invalid_auth"⟩ rfl rfl rfl rfl rfl

end Slack
